import Mathlib

/-!
Verification of the request handler in `src/Task6/files/app.py`, a single-route
Flask application that reads four generation parameters from a web form and
calls the database function `generate_fake_users` with them.

The handler is embedded shallowly:
* a `Form` is the POST body, a finite association list of string fields
  (`request.form`; `get` returns the first value for a key);
* Python `int(...)` on a string is `pyInt`, returning `none` on a
  `ValueError` (optionally signed decimal digits, surrounding whitespace
  stripped);
* the database is a parameter `db` returning either rows or a query error,
  so both exit paths of the `with` block can be examined;
* the result of a request is a trace of connection events (`DbEvent`)
  together with either the rendered context (`Response`) or the unhandled
  exception (`PyErr`).
-/

/-- A POST form body: an ordered list of (field name, value) pairs. -/
structure Form where
  fields : List (String × String)
deriving DecidableEq

/-- Embeds `request.form.get(key)`: first value bound to `key`, if any. -/
def Form.get (f : Form) (key : String) : Option String :=
  (f.fields.find? (fun p => p.1 == key)).map (fun p => p.2)

/-- Embeds `request.form.get(key, default)` for string defaults. -/
def Form.getD (f : Form) (key default : String) : String :=
  (f.get key).getD default

/-- Numeric value of a list of decimal digit characters. -/
def digitsVal (ds : List Char) : Nat :=
  ds.foldl (fun acc c => acc * 10 + (c.toNat - 48)) 0

/-- Embeds Python `int(s)` on a string: strips surrounding whitespace, then
accepts an optional sign followed by one or more decimal digits; any other
input raises `ValueError`, modelled as `none`. -/
def pyInt (s : String) : Option Int :=
  let cs := ((s.toList.dropWhile Char.isWhitespace).reverse.dropWhile
    Char.isWhitespace).reverse
  match cs with
  | [] => none
  | c :: rest =>
    let signed : Int × List Char :=
      if c = '-' then (-1, rest)
      else if c = '+' then (1, rest)
      else (1, cs)
    if signed.2 = [] then none
    else if signed.2.all (fun d => d.isDigit) then
      some (signed.1 * (digitsVal signed.2 : Int))
    else none

/-- Embeds `int(request.form.get(key, default))` where `default` is already an
integer: an absent field yields the default (Python applies `int` to the
integer itself), a present field is parsed with `pyInt`. -/
def getInt (f : Form) (key : String) (default : Int) : Option Int :=
  match f.get key with
  | none => some default
  | some s => pyInt s

/-- The single parameterized query text of `app.py` line 44, with positional
placeholders and no interpolated values. -/
def fakeUsersQuery : String :=
  "SELECT * FROM generate_fake_users(%s, %s, %s, %s)"

/-- One `cur.execute` call: the query text and the four positionally bound
parameters, in order. -/
structure DbCall where
  query : String
  p1 : String
  p2 : Int
  p3 : Int
  p4 : Int
deriving DecidableEq

/-- Connection lifecycle events performed by the handler. -/
inductive DbEvent where
  | openConn
  | exec (call : DbCall)
  | closeConn
deriving DecidableEq

/-- Unhandled exceptions escaping the handler: `ValueError` from `int(...)`,
or a database error raised by the query. -/
inductive PyErr where
  | valueError
  | dbError
deriving DecidableEq

/-- The rendering context passed to `render_template` (lines 49-56). -/
structure Response (Row : Type) where
  locale : String
  seed : Int
  batch_size : Int
  batch_index : Int
  users : List Row
deriving DecidableEq

/-- HTTP method of the request. -/
inductive Method where
  | get
  | post
deriving DecidableEq

/-- Embeds lines 41-56 for the POST path: `with get_db_conn() as conn` opens a
fresh connection, the cursor executes the single parameterized query, and the
`with` block closes the connection whether `execute`/`fetchall` succeeds or
raises; on success the rows are rendered unmodified with the four parameters. -/
def runQuery {Row : Type} (db : String → Int → Int → Int → Except Unit (List Row))
    (locale : String) (seed batch_size batch_index : Int) :
    List DbEvent × Except PyErr (Response Row) :=
  let call : DbCall := ⟨fakeUsersQuery, locale, seed, batch_size, batch_index⟩
  match db locale seed batch_size batch_index with
  | Except.ok users =>
    ([DbEvent.openConn, DbEvent.exec call, DbEvent.closeConn],
      Except.ok ⟨locale, seed, batch_size, batch_index, users⟩)
  | Except.error _ =>
    ([DbEvent.openConn, DbEvent.exec call, DbEvent.closeConn],
      Except.error PyErr.dbError)

/-- Embeds the route handler `index` (lines 21-56 of `app.py`). The defaults
are set first; a GET request renders them with an empty row list and touches
no database; a POST request reads the form fields in source order, navigates
the batch index, runs the query and renders the result. The first component
is the trace of connection events, the second the rendered context or the
escaping exception. -/
def index {Row : Type} (db : String → Int → Int → Int → Except Unit (List Row))
    (method : Method) (form : Form) :
    List DbEvent × Except PyErr (Response Row) :=
  let locale := "en_US"
  let seed : Int := 123
  let batch_size : Int := 10
  let batch_index : Int := 0
  let users : List Row := []
  match method with
  | Method.get => ([], Except.ok ⟨locale, seed, batch_size, batch_index, users⟩)
  | Method.post =>
    let locale := form.getD "locale" locale
    match getInt form "seed" seed with
    | none => ([], Except.error PyErr.valueError)
    | some seed =>
      match getInt form "batch_size" batch_size with
      | none => ([], Except.error PyErr.valueError)
      | some batch_size =>
        let action := form.getD "action" "generate"
        if action = "next" then
          match getInt form "batch_index" 0 with
          | none => ([], Except.error PyErr.valueError)
          | some k => runQuery db locale seed batch_size (k + 1)
        else
          runQuery db locale seed batch_size 0

/-- Lifts an infallible row source into the fallible database interface. -/
def liftDb {Row : Type} (db : String → Int → Int → Int → List Row) :
    String → Int → Int → Int → Except Unit (List Row) :=
  fun l s b i => Except.ok (db l s b i)

/-- Embeds lines 11-16 of `app.py`: `DB_CONN` is read from the process
environment; `if not DB_CONN` (true for an absent variable and for the empty
string) raises `RuntimeError` before the application object serves any
request, otherwise startup proceeds with the connection string. -/
def startup (env : String → Option String) : Except String String :=
  match env "DB_CONN" with
  | none => Except.error "DB_CONN environment variable is not set"
  | some s =>
    if s = "" then Except.error "DB_CONN environment variable is not set"
    else Except.ok s

/-- A concrete row source returning no rows, used to instantiate theorems. -/
def nilDb : String → Int → Int → Int → List Nat :=
  fun _ _ _ _ => []

/-- On a POST whose seed and batch size parse, with `action="next"` and a
parsed batch index `k`, the handler runs the query at `k + 1` and renders. -/
lemma index_post_next_eq {Row : Type} (db : String → Int → Int → Int → List Row)
    (form : Form) (s b k : Int)
    (hs : getInt form "seed" 123 = some s)
    (hb : getInt form "batch_size" 10 = some b)
    (ha : form.getD "action" "generate" = "next")
    (hk : getInt form "batch_index" 0 = some k) :
    index (liftDb db) Method.post form =
      ([DbEvent.openConn,
        DbEvent.exec ⟨fakeUsersQuery, form.getD "locale" "en_US", s, b, k + 1⟩,
        DbEvent.closeConn],
        Except.ok ⟨form.getD "locale" "en_US", s, b, k + 1,
          db (form.getD "locale" "en_US") s b (k + 1)⟩) := by
  simp [index, hs, hb, ha, hk, runQuery, liftDb]

/-- On a POST whose seed and batch size parse, with any action value other
than `"next"`, the handler runs the query at batch index `0` and renders. -/
lemma index_post_other_eq {Row : Type} (db : String → Int → Int → Int → List Row)
    (form : Form) (s b : Int)
    (hs : getInt form "seed" 123 = some s)
    (hb : getInt form "batch_size" 10 = some b)
    (ha : form.getD "action" "generate" ≠ "next") :
    index (liftDb db) Method.post form =
      ([DbEvent.openConn,
        DbEvent.exec ⟨fakeUsersQuery, form.getD "locale" "en_US", s, b, 0⟩,
        DbEvent.closeConn],
        Except.ok ⟨form.getD "locale" "en_US", s, b, 0,
          db (form.getD "locale" "en_US") s b 0⟩) := by
  simp [index, hs, hb, ha, runQuery, liftDb]

/-- Shape of any successful POST: the rendered fields are the parsed form
values, the trace is exactly one open, one execute of the parameterized query
with the four rendered parameters bound positionally, and one close, and the
rendered rows are exactly what the database returned for those parameters. -/
lemma index_post_ok_fields {Row : Type}
    (db : String → Int → Int → Int → Except Unit (List Row))
    (form : Form) (tr : List DbEvent) (r : Response Row)
    (h : index db Method.post form = (tr, Except.ok r)) :
    getInt form "seed" 123 = some r.seed ∧
    getInt form "batch_size" 10 = some r.batch_size ∧
    r.locale = form.getD "locale" "en_US" ∧
    ((form.getD "action" "generate" = "next" ∧
        getInt form "batch_index" 0 = some (r.batch_index - 1)) ∨
      (form.getD "action" "generate" ≠ "next" ∧ r.batch_index = 0)) ∧
    tr = [DbEvent.openConn,
      DbEvent.exec ⟨fakeUsersQuery, r.locale, r.seed, r.batch_size, r.batch_index⟩,
      DbEvent.closeConn] ∧
    db r.locale r.seed r.batch_size r.batch_index = Except.ok r.users := by
  simp only [index] at h
  split at h
  · simp at h
  next s heq =>
    split at h
    · simp at h
    next b heq2 =>
      split at h
      next hnext =>
        split at h
        · simp at h
        next k heq3 =>
          simp only [runQuery] at h
          split at h
          next u hdb =>
            injection h with h1 h2
            injection h2 with h2
            subst h1
            subst h2
            refine ⟨heq, heq2, rfl, Or.inl ⟨hnext, ?_⟩, rfl, hdb⟩
            simpa using heq3
          next e hdb => simp at h
      next hnext =>
        simp only [runQuery] at h
        split at h
        next u hdb =>
          injection h with h1 h2
          injection h2 with h2
          subst h1
          subst h2
          exact ⟨heq, heq2, rfl, Or.inr ⟨hnext, rfl⟩, rfl, hdb⟩
        next e hdb => simp at h

/-- A POST in which any field the handler converts with `int(...)` holds
non-numeric text fails with `ValueError` before any connection event. -/
lemma index_parse_fail {Row : Type}
    (db : String → Int → Int → Int → Except Unit (List Row)) (form : Form)
    (h : (∃ raw, form.get "seed" = some raw ∧ pyInt raw = none) ∨
      (∃ raw, form.get "batch_size" = some raw ∧ pyInt raw = none) ∨
      (form.getD "action" "generate" = "next" ∧
        ∃ raw, form.get "batch_index" = some raw ∧ pyInt raw = none)) :
    index db Method.post form = ([], Except.error PyErr.valueError) := by
  simp only [index]
  rcases h with ⟨raw, hraw, hp⟩ | ⟨raw, hraw, hp⟩ | ⟨ha, raw, hraw, hp⟩
  · have h0 : getInt form "seed" 123 = none := by simp [getInt, hraw, hp]
    simp [h0]
  · cases hs : getInt form "seed" 123 with
    | none => simp
    | some s =>
      have h0 : getInt form "batch_size" 10 = none := by simp [getInt, hraw, hp]
      simp [h0]
  · cases hs : getInt form "seed" 123 with
    | none => simp
    | some s =>
      cases hb : getInt form "batch_size" 10 with
      | none => simp
      | some b =>
        have h0 : getInt form "batch_index" 0 = none := by simp [getInt, hraw, hp]
        simp [ha, h0]

/-- Claim C1: a POST whose fields parse, with `action="next"` and submitted
`batch_index = k`, sets the batch index to exactly `k + 1`, passes it as the
fourth query parameter, and renders it in the response context. -/
theorem C1_next_increments {Row : Type} (db : String → Int → Int → Int → List Row)
    (form : Form) (s b k : Int) (raw : String)
    (hs : getInt form "seed" 123 = some s)
    (hb : getInt form "batch_size" 10 = some b)
    (ha : form.get "action" = some "next")
    (hraw : form.get "batch_index" = some raw)
    (hk : pyInt raw = some k) :
    index (liftDb db) Method.post form =
      ([DbEvent.openConn,
        DbEvent.exec ⟨fakeUsersQuery, form.getD "locale" "en_US", s, b, k + 1⟩,
        DbEvent.closeConn],
        Except.ok ⟨form.getD "locale" "en_US", s, b, k + 1,
          db (form.getD "locale" "en_US") s b (k + 1)⟩) := by
  refine index_post_next_eq db form s b k hs hb ?_ ?_
  · simp [Form.getD, ha]
  · simp [getInt, hraw, hk]

/-- Witness for C1: the end-to-end scenario of the spec, a POST with
`batch_size=10`, `batch_index=3`, `action="next"` renders batch index `4`. -/
theorem C1_next_increments_witness :
    index (liftDb nilDb) Method.post ⟨[("batch_size", "10"), ("batch_index", "3"), ("action", "next")]⟩ =
      ([DbEvent.openConn,
        DbEvent.exec ⟨fakeUsersQuery, "en_US", 123, 10, 4⟩,
        DbEvent.closeConn],
        Except.ok ⟨"en_US", 123, 10, 4, []⟩) :=
  C1_next_increments nilDb ⟨[("batch_size", "10"), ("batch_index", "3"), ("action", "next")]⟩
    123 10 3 "3" (by decide) (by decide) (by decide) (by decide) (by decide)

/-- Claim C2: a POST whose fields parse, with any action other than `"next"`
(a missing action field included), sets the batch index to `0` regardless of
any submitted batch index value. -/
theorem C2_other_resets {Row : Type} (db : String → Int → Int → Int → List Row)
    (form : Form) (s b : Int)
    (hs : getInt form "seed" 123 = some s)
    (hb : getInt form "batch_size" 10 = some b)
    (ha : form.getD "action" "generate" ≠ "next") :
    index (liftDb db) Method.post form =
      ([DbEvent.openConn,
        DbEvent.exec ⟨fakeUsersQuery, form.getD "locale" "en_US", s, b, 0⟩,
        DbEvent.closeConn],
        Except.ok ⟨form.getD "locale" "en_US", s, b, 0,
          db (form.getD "locale" "en_US") s b 0⟩) :=
  index_post_other_eq db form s b hs hb ha

/-- Witness for C2: a POST with `action="generate"` and a submitted
`batch_index=7` still renders batch index `0`. -/
theorem C2_other_resets_witness :
    index (liftDb nilDb) Method.post ⟨[("batch_index", "7"), ("action", "generate")]⟩ =
      ([DbEvent.openConn,
        DbEvent.exec ⟨fakeUsersQuery, "en_US", 123, 10, 0⟩,
        DbEvent.closeConn],
        Except.ok ⟨"en_US", 123, 10, 0, []⟩) :=
  C2_other_resets nilDb ⟨[("batch_index", "7"), ("action", "generate")]⟩
    123 10 (by decide) (by decide) (by decide)

/-- Claim C10: a POST with `action="next"` and no batch index field at all
uses the inner default `0`, so the handler calls the database and renders the
response with batch index `1`. -/
theorem C10_next_missing_index {Row : Type} (db : String → Int → Int → Int → List Row)
    (form : Form) (s b : Int)
    (hs : getInt form "seed" 123 = some s)
    (hb : getInt form "batch_size" 10 = some b)
    (ha : form.get "action" = some "next")
    (hk : form.get "batch_index" = none) :
    index (liftDb db) Method.post form =
      ([DbEvent.openConn,
        DbEvent.exec ⟨fakeUsersQuery, form.getD "locale" "en_US", s, b, 1⟩,
        DbEvent.closeConn],
        Except.ok ⟨form.getD "locale" "en_US", s, b, 1,
          db (form.getD "locale" "en_US") s b 1⟩) := by
  have h := index_post_next_eq db form s b 0 hs hb
    (by simp [Form.getD, ha]) (by simp [getInt, hk])
  simpa using h

/-- Witness for C10: a POST whose only field is `action="next"` renders batch
index `1`. -/
theorem C10_next_missing_index_witness :
    index (liftDb nilDb) Method.post ⟨[("action", "next")]⟩ =
      ([DbEvent.openConn,
        DbEvent.exec ⟨fakeUsersQuery, "en_US", 123, 10, 1⟩,
        DbEvent.closeConn],
        Except.ok ⟨"en_US", 123, 10, 1, []⟩) :=
  C10_next_missing_index nilDb ⟨[("action", "next")]⟩
    123 10 (by decide) (by decide) (by decide) (by decide)

/-- Claim C3: a GET request performs no database call and renders an empty row
list together with the defaults `locale="en_US"`, `seed=123`, `batch_size=10`,
`batch_index=0`. -/
theorem C3_get_defaults {Row : Type}
    (db : String → Int → Int → Int → Except Unit (List Row)) (form : Form) :
    index db Method.get form = ([], Except.ok ⟨"en_US", 123, 10, 0, ([] : List Row)⟩) := by
  rfl

/-- Claim C4: every POST whose fields parse executes exactly one parameterized
`generate_fake_users` query, binding the four navigation-updated parameters
positionally in order, and renders the fetched rows unmodified together with
those same parameter values. -/
theorem C4_single_query {Row : Type} (db : String → Int → Int → Int → List Row)
    (form : Form) (tr : List DbEvent) (r : Response Row)
    (h : index (liftDb db) Method.post form = (tr, Except.ok r)) :
    tr = [DbEvent.openConn,
      DbEvent.exec ⟨fakeUsersQuery, r.locale, r.seed, r.batch_size, r.batch_index⟩,
      DbEvent.closeConn] ∧
    r.users = db r.locale r.seed r.batch_size r.batch_index := by
  obtain ⟨-, -, -, -, htr, hdb⟩ := index_post_ok_fields (liftDb db) form tr r h
  refine ⟨htr, ?_⟩
  simp only [liftDb] at hdb
  injection hdb with hdb
  exact hdb.symm

/-- Witness for C4: the end-to-end scenario of the spec, a POST of
`locale=fr_FR`, `seed=42`, `batch_size=5`, `batch_index=0`,
`action=generate`, issues exactly one call bound to those values. -/
theorem C4_single_query_witness :
    [DbEvent.openConn, DbEvent.exec ⟨fakeUsersQuery, "fr_FR", 42, 5, 0⟩, DbEvent.closeConn] =
      [DbEvent.openConn,
        DbEvent.exec ⟨fakeUsersQuery,
          (⟨"fr_FR", 42, 5, 0, ([] : List Nat)⟩ : Response Nat).locale,
          (⟨"fr_FR", 42, 5, 0, ([] : List Nat)⟩ : Response Nat).seed,
          (⟨"fr_FR", 42, 5, 0, ([] : List Nat)⟩ : Response Nat).batch_size,
          (⟨"fr_FR", 42, 5, 0, ([] : List Nat)⟩ : Response Nat).batch_index⟩,
        DbEvent.closeConn] ∧
    (⟨"fr_FR", 42, 5, 0, ([] : List Nat)⟩ : Response Nat).users = nilDb "fr_FR" 42 5 0 :=
  C4_single_query nilDb
    ⟨[("locale", "fr_FR"), ("seed", "42"), ("batch_size", "5"),
      ("batch_index", "0"), ("action", "generate")]⟩
    [DbEvent.openConn, DbEvent.exec ⟨fakeUsersQuery, "fr_FR", 42, 5, 0⟩, DbEvent.closeConn]
    ⟨"fr_FR", 42, 5, 0, []⟩ (by rfl)

/-- Counterexample for C5: with `action="next"` and a client-supplied
`batch_index` of `-5`, the handler uses batch index `-4`, which is negative,
so the batch index is not nonnegative for every client-supplied value. -/
theorem C5_counterexample :
    index (liftDb nilDb) Method.post ⟨[("action", "next"), ("batch_index", "-5")]⟩ =
      ([DbEvent.openConn,
        DbEvent.exec ⟨fakeUsersQuery, "en_US", 123, 10, -4⟩,
        DbEvent.closeConn],
        Except.ok ⟨"en_US", 123, 10, -4, []⟩) ∧
    ¬ (0 : Int) ≤ -4 := by
  exact ⟨by rfl, by decide⟩

/-- Claim C5 (amended): the batch index the handler uses, passed to the
database call and rendered, is the submitted value plus one on a `"next"`
action and `0` otherwise; it is nonnegative whenever the client-supplied
batch index parses to a nonnegative integer. -/
theorem C5_amended_monotone {Row : Type} (db : String → Int → Int → Int → List Row)
    (form : Form) (k : Int)
    (hk : getInt form "batch_index" 0 = some k) (hknn : 0 ≤ k)
    (tr : List DbEvent) (r : Response Row)
    (h : index (liftDb db) Method.post form = (tr, Except.ok r)) :
    r.batch_index = (if form.getD "action" "generate" = "next" then k + 1 else 0) ∧
    0 ≤ r.batch_index ∧
    tr = [DbEvent.openConn,
      DbEvent.exec ⟨fakeUsersQuery, r.locale, r.seed, r.batch_size, r.batch_index⟩,
      DbEvent.closeConn] := by
  obtain ⟨-, -, -, hnav, htr, -⟩ := index_post_ok_fields (liftDb db) form tr r h
  rcases hnav with ⟨ha, hbi⟩ | ⟨ha, hbi⟩
  · rw [hk] at hbi
    injection hbi with hbi
    rw [if_pos ha]
    refine ⟨by omega, by omega, htr⟩
  · rw [if_neg ha]
    exact ⟨hbi, by rw [hbi], htr⟩

/-- Witness for C5 (amended): a POST with `action="next"` and submitted batch
index `3` uses batch index `4`, which is nonnegative. -/
theorem C5_amended_monotone_witness :
    (⟨"en_US", 123, 10, 4, ([] : List Nat)⟩ : Response Nat).batch_index =
      (if (⟨[("action", "next"), ("batch_index", "3")]⟩ : Form).getD "action" "generate" = "next"
        then (3 : Int) + 1 else 0) ∧
    0 ≤ (⟨"en_US", 123, 10, 4, ([] : List Nat)⟩ : Response Nat).batch_index ∧
    [DbEvent.openConn, DbEvent.exec ⟨fakeUsersQuery, "en_US", 123, 10, 4⟩, DbEvent.closeConn] =
      [DbEvent.openConn,
        DbEvent.exec ⟨fakeUsersQuery,
          (⟨"en_US", 123, 10, 4, ([] : List Nat)⟩ : Response Nat).locale,
          (⟨"en_US", 123, 10, 4, ([] : List Nat)⟩ : Response Nat).seed,
          (⟨"en_US", 123, 10, 4, ([] : List Nat)⟩ : Response Nat).batch_size,
          (⟨"en_US", 123, 10, 4, ([] : List Nat)⟩ : Response Nat).batch_index⟩,
        DbEvent.closeConn] :=
  C5_amended_monotone nilDb ⟨[("action", "next"), ("batch_index", "3")]⟩ 3
    (by decide) (by decide)
    [DbEvent.openConn, DbEvent.exec ⟨fakeUsersQuery, "en_US", 123, 10, 4⟩, DbEvent.closeConn]
    ⟨"en_US", 123, 10, 4, []⟩ (by rfl)

/-- Claim C6: a POST supplying non-numeric text for `seed`, `batch_size`, or
(`action="next"` only) `batch_index` fails with an unhandled `ValueError`
before any database call, returning no partial row list. -/
theorem C6_nonnumeric_fails {Row : Type}
    (db : String → Int → Int → Int → Except Unit (List Row)) (form : Form)
    (h : (∃ raw, form.get "seed" = some raw ∧ pyInt raw = none) ∨
      (∃ raw, form.get "batch_size" = some raw ∧ pyInt raw = none) ∨
      (form.getD "action" "generate" = "next" ∧
        ∃ raw, form.get "batch_index" = some raw ∧ pyInt raw = none)) :
    index db Method.post form = ([], Except.error PyErr.valueError) :=
  index_parse_fail db form h

/-- Witness for C6: a POST with `seed=abc` fails with `ValueError` and an
empty event trace. -/
theorem C6_nonnumeric_fails_witness :
    index (liftDb nilDb) Method.post ⟨[("seed", "abc")]⟩ =
      ([], Except.error PyErr.valueError) :=
  C6_nonnumeric_fails (liftDb nilDb) ⟨[("seed", "abc")]⟩
    (Or.inl ⟨"abc", by decide, by decide⟩)

/-- Counterexample for C7: a POST whose `seed` field is non-numeric opens no
database connection at all, so it is not the case that every POST request
opens exactly one connection. -/
theorem C7_counterexample :
    (index (liftDb nilDb) Method.post ⟨[("seed", "zzz")]⟩).1 = [] ∧
    (index (liftDb nilDb) Method.post ⟨[("seed", "zzz")]⟩).1.count DbEvent.openConn ≠ 1 := by
  exact ⟨by decide, by decide⟩

/-- Claim C7 (amended): a POST either opens no connection (integer parsing
failed before the database step) or opens exactly one fresh connection,
executes the single read-only `generate_fake_users` query on it, and closes
it, on both exit paths of the query (success and raised error); opens and
closes always balance. -/
theorem C7_amended_scoped_conn {Row : Type}
    (db : String → Int → Int → Int → Except Unit (List Row)) (form : Form) :
    ((index db Method.post form).1.count DbEvent.openConn =
      (index db Method.post form).1.count DbEvent.closeConn) ∧
    ((index db Method.post form).1 = [] ∨
      ∃ c : DbCall, (index db Method.post form).1 =
        [DbEvent.openConn, DbEvent.exec c, DbEvent.closeConn] ∧
        c.query = fakeUsersQuery) := by
  simp only [index]
  split
  · exact ⟨rfl, Or.inl rfl⟩
  · split
    · exact ⟨rfl, Or.inl rfl⟩
    · split
      · split
        · exact ⟨rfl, Or.inl rfl⟩
        · simp only [runQuery]
          split
          · exact ⟨rfl, Or.inr ⟨_, rfl, rfl⟩⟩
          · exact ⟨rfl, Or.inr ⟨_, rfl, rfl⟩⟩
      · simp only [runQuery]
        split
        · exact ⟨rfl, Or.inr ⟨_, rfl, rfl⟩⟩
        · exact ⟨rfl, Or.inr ⟨_, rfl, rfl⟩⟩

/-- Claim C8: when the `DB_CONN` environment variable is absent or empty,
startup raises `RuntimeError` and the application never reaches a served
state. -/
theorem C8_missing_conn_fatal (env : String → Option String)
    (h : env "DB_CONN" = none ∨ env "DB_CONN" = some "") :
    startup env = Except.error "DB_CONN environment variable is not set" := by
  rcases h with h | h <;> simp [startup, h]

/-- Witness for C8: startup fails both for an empty environment and for an
environment binding `DB_CONN` to the empty string. -/
theorem C8_missing_conn_fatal_witness :
    startup (fun _ => none) = Except.error "DB_CONN environment variable is not set" ∧
    startup (fun _ => some "") = Except.error "DB_CONN environment variable is not set" :=
  ⟨C8_missing_conn_fatal (fun _ => none) (Or.inl rfl),
    C8_missing_conn_fatal (fun _ => some "") (Or.inr rfl)⟩

/-- Claim C9: the defaults `seed=123` and `batch_size=10` apply only when the
field is entirely absent from the POST body; a present-but-empty field is not
defaulted and instead fails the request with an integer-conversion error. -/
theorem C9_empty_vs_absent {Row : Type} (db : String → Int → Int → Int → List Row)
    (form : Form) :
    (form.get "seed" = some "" →
      index (liftDb db) Method.post form = ([], Except.error PyErr.valueError)) ∧
    (form.get "batch_size" = some "" →
      index (liftDb db) Method.post form = ([], Except.error PyErr.valueError)) ∧
    (form.get "seed" = none → ∀ (tr : List DbEvent) (r : Response Row),
      index (liftDb db) Method.post form = (tr, Except.ok r) → r.seed = 123) ∧
    (form.get "batch_size" = none → ∀ (tr : List DbEvent) (r : Response Row),
      index (liftDb db) Method.post form = (tr, Except.ok r) → r.batch_size = 10) := by
  refine ⟨?_, ?_, ?_, ?_⟩
  · intro hs
    exact index_parse_fail (liftDb db) form (Or.inl ⟨"", hs, by decide⟩)
  · intro hs
    exact index_parse_fail (liftDb db) form (Or.inr (Or.inl ⟨"", hs, by decide⟩))
  · intro hs tr r h
    obtain ⟨hseed, -, -, -, -, -⟩ := index_post_ok_fields (liftDb db) form tr r h
    have h0 : getInt form "seed" 123 = some 123 := by simp [getInt, hs]
    rw [h0] at hseed
    injection hseed with e
    exact e.symm
  · intro hs tr r h
    obtain ⟨-, hbs, -, -, -, -⟩ := index_post_ok_fields (liftDb db) form tr r h
    have h0 : getInt form "batch_size" 10 = some 10 := by simp [getInt, hs]
    rw [h0] at hbs
    injection hbs with e
    exact e.symm

/-- Witness for C9: a present-but-empty `seed` or `batch_size` field fails
the request, while a body missing both fields renders the defaults. -/
theorem C9_empty_vs_absent_witness :
    (index (liftDb nilDb) Method.post ⟨[("seed", "")]⟩ =
      ([], Except.error PyErr.valueError)) ∧
    (index (liftDb nilDb) Method.post ⟨[("batch_size", "")]⟩ =
      ([], Except.error PyErr.valueError)) ∧
    (⟨"en_US", 123, 10, 0, ([] : List Nat)⟩ : Response Nat).seed = 123 ∧
    (⟨"en_US", 123, 10, 0, ([] : List Nat)⟩ : Response Nat).batch_size = 10 :=
  ⟨(C9_empty_vs_absent nilDb ⟨[("seed", "")]⟩).1 (by decide),
    (C9_empty_vs_absent nilDb ⟨[("batch_size", "")]⟩).2.1 (by decide),
    (C9_empty_vs_absent nilDb ⟨[]⟩).2.2.1 (by decide)
      [DbEvent.openConn, DbEvent.exec ⟨fakeUsersQuery, "en_US", 123, 10, 0⟩, DbEvent.closeConn]
      ⟨"en_US", 123, 10, 0, []⟩ (by rfl),
    (C9_empty_vs_absent nilDb ⟨[]⟩).2.2.2 (by decide)
      [DbEvent.openConn, DbEvent.exec ⟨fakeUsersQuery, "en_US", 123, 10, 0⟩, DbEvent.closeConn]
      ⟨"en_US", 123, 10, 0, []⟩ (by rfl)⟩
